import Mathlib

set_option maxHeartbeats 1000000

/-!
Verification development for the audio replay buffer of
src/services/audio_replay.py.

Modelling conventions (shallow embedding):
* Python floats (buffer-size limits, durations, timestamps) are modelled as
  exact rationals.
* Byte strings (the PCM buffer, frame payloads) are lists of naturals;
  Python strings are lists of characters.
* `time.time()` is passed explicitly as a `now` argument.
* Python exceptions are a small inductive type: ordinary `Exception`
  subclasses carry a class name and message, and `asyncio.CancelledError`
  (which is *not* an `Exception` subclass in Python >= 3.8) is a separate
  constructor.
* JSON response dictionaries are modelled as an inductive of the response
  shapes actually built by the code, with `status` / `success` projections
  mirroring the corresponding JSON fields.
* The `\s` and `\d` character classes and `str.split`/`str.strip`
  whitespace are modelled over the ASCII subset Python shares with them.
-/

/-- Python exceptions as seen by the service: ordinary `Exception`s with a
class name and message, and `asyncio.CancelledError` (a `BaseException`
that `except Exception` does not catch). -/
inductive PyExc where
  | exc (ty : String) (msg : String)
  | cancelled
deriving DecidableEq

/-- ASCII fragment of Python's whitespace class (used by `\s`, `str.strip`,
`str.split`). -/
def isPySpace (c : Char) : Bool :=
  c = ' ' || c = '\t' || c = '\n' || c = '\r' || c = '\x0b' || c = '\x0c'

/-- ASCII fragment of Python's `\d`. -/
def isPyDigit (c : Char) : Bool :=
  '0' ≤ c && c ≤ '9'

/-- Python `str.strip()`: drop leading and trailing whitespace. -/
def pyStrip (s : List Char) : List Char :=
  ((s.dropWhile isPySpace).reverse.dropWhile isPySpace).reverse

/-- One `foldr` step of Python `str.split()`: accumulate the current word
and the completed words of the rest of the string. -/
def pySplitStep (c : Char) (acc : List Char × List (List Char)) :
    List Char × List (List Char) :=
  if isPySpace c then ([], if acc.1 = [] then acc.2 else acc.1 :: acc.2)
  else (c :: acc.1, acc.2)

/-- Python `str.split()` with no separator: split on whitespace runs,
discarding empty words. -/
def pySplit (s : List Char) : List (List Char) :=
  let p := s.foldr pySplitStep ([], [])
  if p.1 = [] then p.2 else p.1 :: p.2

/-- Python `" ".join(words)`. -/
def joinSpace (ws : List (List Char)) : List Char :=
  List.intercalate [' '] ws

/-- Whitespace normalization as the spec describes it: runs of whitespace
collapsed to single spaces, leading and trailing whitespace stripped
(`' '.join(s.split())` followed by `strip()`). -/
def normalizeWhitespace (s : List Char) : List Char :=
  pyStrip (joinSpace (pySplit s))

/-- Python `int(q)` for a rational: truncation toward zero
(`Int.tdiv` truncates toward zero, and `q.den > 0`). -/
def pyInt (q : ℚ) : ℤ :=
  Int.tdiv q.num (q.den : ℤ)

/-- The `AudioAsset` dataclass: one captured utterance. -/
structure AudioAsset where
  buffer : List Nat
  sample_rate : Nat
  channels : Nat
  frame_count : Nat
  text_content : List Char
  clean_text : List Char
  created_at : ℚ
  duration_seconds : ℚ
deriving DecidableEq

/-- `AudioAsset.is_valid`: buffer non-empty, at least one frame, cleaned
text non-empty after stripping, and duration strictly above 100 ms. -/
def AudioAsset.is_valid (a : AudioAsset) : Bool :=
  decide (0 < a.buffer.length) &&
  decide (0 < a.frame_count) &&
  decide (0 < (pyStrip a.clean_text).length) &&
  decide ((1 : ℚ) / 10 < a.duration_seconds)

/-- `AudioAsset.size_mb`: buffer length over `1024 * 1024`. -/
def AudioAsset.size_mb (a : AudioAsset) : ℚ :=
  (a.buffer.length : ℚ) / (1024 * 1024)

/-- `AudioAsset.clear`: empties the buffer and resets text, frame count and
duration; sample rate, channels and creation time are left as they are. -/
def AudioAsset.clear (a : AudioAsset) : AudioAsset :=
  { a with buffer := [], text_content := [], clean_text := [],
           frame_count := 0, duration_seconds := 0 }

/-- Whole-service state: configuration, the single live asset, the two
busy flags and the four monotone counters. -/
structure ReplayState where
  max_buffer_size_mb : ℚ
  max_duration_seconds : ℚ
  current_asset : AudioAsset
  is_capturing : Bool
  is_replaying : Bool
  total_captures : Nat
  total_replays : Nat
  failed_captures : Nat
  failed_replays : Nat
deriving DecidableEq

/-- The state built by a successful `AudioReplayService.__init__`: a fresh
(empty, invalid) asset, both flags down, all counters zero. -/
def freshState (max_buffer_size_mb max_duration_seconds now : ℚ) : ReplayState :=
  { max_buffer_size_mb := max_buffer_size_mb
    max_duration_seconds := max_duration_seconds
    current_asset :=
      { buffer := [], sample_rate := 16000, channels := 1, frame_count := 0,
        text_content := [], clean_text := [], created_at := now,
        duration_seconds := 0 }
    is_capturing := false
    is_replaying := false
    total_captures := 0
    total_replays := 0
    failed_captures := 0
    failed_replays := 0 }

/-- `AudioReplayService.__init__`: validates both limits, raising
`ValueError` outside the accepted ranges, and otherwise returns the fresh
service state. -/
def AudioReplayService_init (max_buffer_size_mb max_duration_seconds now : ℚ) :
    Except PyExc ReplayState :=
  if max_buffer_size_mb ≤ 0 ∨ 100 < max_buffer_size_mb then
    .error (.exc ("ValueError") ("max_buffer_size_mb debe estar entre 0.1 y 100 MB"))
  else if max_duration_seconds ≤ 0 ∨ 300 < max_duration_seconds then
    .error (.exc ("ValueError") ("max_duration_seconds debe estar entre 1 y 300 segundos"))
  else
    .ok (freshState max_buffer_size_mb max_duration_seconds now)

/-! Text cleaning (`AudioReplayService._clean_text_content`).

The three regex patterns share one core,
`\s*\d{1,2}:\d{2}\s*[ap]\.?\s*m\.?\s*`, differing only by a `$` or `^`
anchor.  On this pattern Python's backtracking matcher is deterministic:
each `\s*` is followed by a token no whitespace character can start, each
`\.?` by a token `.` cannot start, and the two-digit hour alternative is
tried before the one-digit one.  `matchCore` is that deterministic
matcher: it consumes one greedy match at the head of the list and returns
the rest. -/

/-- The hour part `\d{1,2}:` (two digits preferred, then one). -/
def matchHourColon : List Char → Option (List Char)
  | a :: b :: c :: r =>
    if isPyDigit a && isPyDigit b && c = ':' then some r
    else if isPyDigit a && b = ':' then some (c :: r)
    else none
  | a :: b :: r =>
    if isPyDigit a && b = ':' then some r else none
  | _ => none

/-- The minute part `\d{2}`. -/
def matchTwoDigits : List Char → Option (List Char)
  | a :: b :: r => if isPyDigit a && isPyDigit b then some r else none
  | _ => none

/-- The optional literal dot `\.?`. -/
def matchOptDot : List Char → List Char
  | '.' :: r => r
  | s => s

/-- Is the character one of `[ap]` (case-insensitive)? -/
def isAP (c : Char) : Bool :=
  c = 'a' || c = 'p' || c = 'A' || c = 'P'

/-- Is the character `m` or `M`? -/
def isM (c : Char) : Bool :=
  c = 'm' || c = 'M'

/-- Greedy match of the clock-time core
`\s*\d{1,2}:\d{2}\s*[ap]\.?\s*m\.?\s*` at the head of the string;
returns the unconsumed rest on success. -/
def matchCore (s : List Char) : Option (List Char) :=
  match matchHourColon (s.dropWhile isPySpace) with
  | none => none
  | some s2 =>
    match matchTwoDigits s2 with
    | none => none
    | some s3 =>
      match s3.dropWhile isPySpace with
      | [] => none
      | c :: s5 =>
        if isAP c then
          match (matchOptDot s5).dropWhile isPySpace with
          | [] => none
          | m :: s8 =>
            if isM m then some ((matchOptDot s8).dropWhile isPySpace)
            else none
        else none

/-- Does the core pattern match at some position of the string? -/
def containsClockTime : List Char → Bool
  | [] => (matchCore []).isSome
  | c :: cs => (matchCore (c :: cs)).isSome || containsClockTime cs

/-- Does the core pattern, extended with the `$` anchor, match at the head
of the string?  (The trailing `\s*` of the core is greedy, so the match
reaches the end of the string exactly when the rest is empty.) -/
def matchCoreEnd (s : List Char) : Bool :=
  match matchCore s with
  | some [] => true
  | _ => false

/-- `re.sub` with the `$`-anchored pattern
`\s*\d{1,2}:\d{2}\s*[ap]\.?\s*m\.?\s*$`: remove the leftmost match that
reaches the end of the string, if any. -/
def subEndTimestamp : List Char → List Char
  | [] => []
  | c :: cs => if matchCoreEnd (c :: cs) then [] else c :: subEndTimestamp cs

/-- `re.sub` with the `^`-anchored pattern
`^\s*\d{1,2}:\d{2}\s*[ap]\.?\s*m\.?\s*`: remove one match at the start of
the string, if any. -/
def subStartTimestamp (s : List Char) : List Char :=
  (matchCore s).getD s

/-- `re.sub` with the unanchored pattern
`\\s*\\d{1,2}:\\d{2}\\s*[ap]\\.?\\s*m\\.?\\s*`: scan left to right, removing every
(leftmost, greedy) match.  Termination: a successful `matchCore` consumes
at least the hour digits, the colon and the minute digits. -/
def subMiddleTimestamps : List Char → List Char
  | [] => []
  | c :: cs =>
    match h : matchCore (c :: cs) with
    | some r => subMiddleTimestamps r
    | none => c :: subMiddleTimestamps cs
termination_by s => s.length
decreasing_by
  · have hCore : ∀ u w : List Char, matchCore u = some w → w.length < u.length := by
      intro u w hu
      have hHour : ∀ x v : List Char, matchHourColon x = some v → v.length + 2 ≤ x.length := by
        intro x v hx
        rcases x with _ | ⟨a, _ | ⟨b, _ | ⟨d, t⟩⟩⟩
        · simp [matchHourColon] at hx
        · simp [matchHourColon] at hx
        · simp only [matchHourColon] at hx
          split at hx
          · cases hx; simp
          · cases hx
        · simp only [matchHourColon] at hx
          split at hx
          · cases hx; simp
          · split at hx
            · cases hx; simp
            · cases hx
      have hTwo : ∀ x v : List Char, matchTwoDigits x = some v → v.length + 2 ≤ x.length := by
        intro x v hx
        rcases x with _ | ⟨a, _ | ⟨b, t⟩⟩
        · simp [matchTwoDigits] at hx
        · simp [matchTwoDigits] at hx
        · simp only [matchTwoDigits] at hx
          split at hx
          · cases hx; simp
          · cases hx
      have hDrop : ∀ x : List Char, (x.dropWhile isPySpace).length ≤ x.length := by
        intro x
        exact (List.dropWhile_suffix isPySpace).sublist.length_le
      have hDot : ∀ x : List Char, (matchOptDot x).length ≤ x.length := by
        intro x
        rcases x with _ | ⟨d, t⟩
        · simp [matchOptDot]
        · by_cases hc : d = '.'
          · subst hc; simp [matchOptDot]
          · have he : matchOptDot (d :: t) = d :: t := by
              unfold matchOptDot
              split
              · next heq => rw [List.cons.injEq] at heq; exact absurd heq.1 hc
              · rfl
            rw [he]
      unfold matchCore at hu
      split at hu
      · cases hu
      · next s2 h1 =>
        split at hu
        · cases hu
        · next s3 h2 =>
          split at hu
          · cases hu
          · next a5 s5 h3 =>
            split at hu
            · split at hu
              · cases hu
              · next m5 s8 h4 =>
                split at hu
                · cases hu
                  have e1 := hHour _ _ h1
                  have e2 := hTwo _ _ h2
                  have e3 := hDrop u
                  have e4 : (s3.dropWhile isPySpace).length ≤ s3.length := hDrop s3
                  rw [h3] at e4
                  have e5 : ((matchOptDot s5).dropWhile isPySpace).length ≤ s5.length :=
                    Nat.le_trans (hDrop _) (hDot s5)
                  rw [h4] at e5
                  have e6 : ((matchOptDot s8).dropWhile isPySpace).length ≤ s8.length :=
                    Nat.le_trans (hDrop _) (hDot s8)
                  simp only [List.length_cons] at e4 e5 ⊢
                  omega
                · cases hu
            · cases hu
    exact hCore _ _ h
  · simp

/-- `AudioReplayService._clean_text_content`: empty in, empty out;
otherwise remove trailing, then leading, then embedded clock-time
patterns, then normalize whitespace (`' '.join(text.split())` followed by
`strip()`). -/
def clean_text_content (raw_text : List Char) : List Char :=
  if raw_text = [] then []
  else pyStrip (joinSpace (pySplit
    (subMiddleTimestamps (subStartTimestamp (subEndTimestamp raw_text)))))

/-- One raw audio frame inside an `AudioContent` item (`frame.data`,
`frame.sample_rate`, `frame.num_channels`); a zero rate or channel count
stands for a missing/non-positive attribute. -/
structure InFrame where
  data : List Nat
  sample_rate : Nat
  num_channels : Nat
deriving DecidableEq

/-- One item of `chat_message.content`: an `AudioContent` with its frame
list, an item carrying a `text` attribute, or anything else. -/
inductive ContentItem where
  | audio (frame : List InFrame)
  | textItem (text : List Char)
  | other
deriving DecidableEq

/-- A chat message: its `content` list (`[]` models falsy/absent content). -/
structure ChatMessage where
  content : List ContentItem
deriving DecidableEq

/-- A speech handle with a `chat_message` attribute. -/
structure SpeechHandle where
  chat_message : Option ChatMessage
deriving DecidableEq

/-- The argument accepted by `save_last_audio`: a falsy handle or one
without a `chat_message` attribute, a malformed duck-typed handle whose
inspection raises an ordinary exception, or a well-formed handle. -/
inductive HandleArg where
  | invalid
  | malformed (ty : String) (msg : String)
  | ok (h : SpeechHandle)
deriving DecidableEq

/-- The `AudioContent` filter of `_capture_audio_content`:
`isinstance(c, AudioContent) and hasattr(c, 'frame') and c.frame`. -/
def audioFramesOf : ContentItem → Option (List InFrame)
  | .audio fs => if fs = [] then none else some fs
  | _ => none

/-- The text filter of `_capture_text_content`:
`hasattr(content_item, 'text') and content_item.text`, stripped. -/
def textOf : ContentItem → Option (List Char)
  | .textItem t => if t = [] then none else some (pyStrip t)
  | _ => none

/-- The frame loop of `_capture_audio_content`: concatenates non-empty
frame payloads into the buffer, counts frames, accumulates 16-bit sample
counts, and takes the last positive per-frame sample rate/channel count.
Returns (asset, frame_count, total_samples). -/
def processFrames (a0 : AudioAsset) (frames : List InFrame) :
    AudioAsset × Nat × Nat :=
  frames.foldl (fun acc f =>
    if f.data = [] then acc
    else
      let a := { acc.1 with buffer := acc.1.buffer ++ f.data }
      let a := if 0 < f.sample_rate then { a with sample_rate := f.sample_rate } else a
      let a := if 0 < f.num_channels then { a with channels := f.num_channels } else a
      (a, acc.2.1 + 1, acc.2.2 + f.data.length / 2)) (a0, 0, 0)

/-- `AudioReplayService._capture_audio_content`: returns unchanged on a
missing/empty message content; otherwise clears the previous asset,
takes the first `AudioContent` item's frames, concatenates them and
derives duration from the accumulated sample count. -/
def capture_audio_content (h : SpeechHandle) (st : ReplayState) : ReplayState :=
  match h.chat_message with
  | none => st
  | some cm =>
    if cm.content = [] then st
    else
      let st1 := { st with current_asset := st.current_asset.clear }
      match (cm.content.filterMap audioFramesOf).head? with
      | none => st1
      | some frames =>
        let r := processFrames st1.current_asset frames
        let a : AudioAsset := { r.1 with frame_count := r.2.1 }
        let a : AudioAsset :=
          if 0 < r.2.2 ∧ 0 < a.sample_rate then
            { a with duration_seconds := (r.2.2 : ℚ) / (a.sample_rate : ℚ) }
          else a
        { st1 with current_asset := a }

/-- `AudioReplayService._capture_text_content`: joins the stripped text of
all items with a truthy `text` attribute and stores the raw and cleaned
versions; a message without such items leaves the asset unchanged. -/
def capture_text_content (h : SpeechHandle) (st : ReplayState) : ReplayState :=
  match h.chat_message with
  | none => st
  | some cm =>
    if cm.content = [] then st
    else
      match cm.content.filterMap textOf with
      | [] => st
      | p :: parts =>
        let raw := joinSpace (p :: parts)
        let a : AudioAsset :=
          { st.current_asset with
            text_content := raw,
            clean_text := clean_text_content raw }
        { st with current_asset := a }

/-- `AudioReplayService._finalize_audio_asset`: if the buffer exceeds the
configured maximum it is truncated to `int(max_mb * 1024 * 1024)` bytes
and the duration recomputed from the truncated 16-bit sample count; the
duration limit only logs; finally `created_at` is set to the current
time. -/
def finalize_audio_asset (now : ℚ) (st : ReplayState) : ReplayState :=
  let asset := st.current_asset
  let asset :=
    if st.max_buffer_size_mb < asset.size_mb then
      let max_bytes := (pyInt (st.max_buffer_size_mb * 1024 * 1024)).toNat
      let asset := { asset with buffer := asset.buffer.take max_bytes }
      if 0 < asset.sample_rate then
        { asset with duration_seconds :=
            ((asset.buffer.length / 2 : ℕ) : ℚ) / (asset.sample_rate : ℚ) }
      else asset
    else asset
  { st with current_asset := { asset with created_at := now } }

/-- The body of `save_last_audio`'s `try` block: capture audio, capture
text, finalize, then bump `total_captures` or `failed_captures` by
validity.  A malformed handle raises at its first inspection, before any
state is touched. -/
def save_last_audio_body (now : ℚ) (h : HandleArg) (st : ReplayState) :
    Except PyExc ReplayState :=
  match h with
  | .malformed ty msg => .error (.exc ty msg)
  | .invalid => .ok st
  | .ok sh =>
    let st2 := finalize_audio_asset now (capture_text_content sh (capture_audio_content sh st))
    .ok (if st2.current_asset.is_valid then
          { st2 with total_captures := st2.total_captures + 1 }
        else
          { st2 with failed_captures := st2.failed_captures + 1 })

/-- `AudioReplayService.save_last_audio`: early return on a falsy handle;
otherwise, under the lock, sets `is_capturing`, runs the body,
counts a failed capture on an ordinary exception (`except Exception`),
and clears `is_capturing` in the `finally` block.  The second component
is the exception propagating to the caller, if any. -/
def save_last_audio (now : ℚ) (h : HandleArg) (st : ReplayState) :
    ReplayState × Option PyExc :=
  match h with
  | .invalid => (st, none)
  | _ =>
    let st1 := { st with is_capturing := true }
    let r :=
      match save_last_audio_body now h st1 with
      | .ok st2 => (st2, none)
      | .error (.exc _ _) =>
        ({ st1 with failed_captures := st1.failed_captures + 1 }, none)
      | .error .cancelled => (st1, some PyExc.cancelled)
    ({ r.1 with is_capturing := false }, r.2)

/-- An outgoing `rtc.AudioFrame` as built by `replay_iterator` (the
external constructor is modelled as a plain record). -/
structure OutFrame where
  data : List Nat
  sample_rate : Nat
  num_channels : Nat
  samples_per_channel : Nat
deriving DecidableEq

/-- The while loop of `replay_iterator`: slice the buffer into chunks of
`chunk_size` bytes (the last one may be shorter).  A zero `chunk_size`
reproduces the loop's `if len(chunk_data) == 0: break` on its first
iteration. -/
def replayChunks (chunk_size : Nat) : List Nat → List (List Nat)
  | [] => []
  | b :: bs =>
    if chunk_size = 0 then []
    else ((b :: bs).take chunk_size) :: replayChunks chunk_size ((b :: bs).drop chunk_size)
termination_by buf => buf.length
decreasing_by
  simp only [List.length_drop, List.length_cons]
  omega

/-- The 20 ms chunk size of `replay_iterator`:
`((sample_rate * 20) // 1000) * 2 * channels` bytes. -/
def chunkSizeOf (a : AudioAsset) : Nat :=
  ((a.sample_rate * 20) / 1000) * 2 * a.channels

/-- `AudioReplayService.replay_iterator`: nothing for an invalid asset;
otherwise the buffer sliced into 20 ms frames carrying the asset's sample
rate and channel count. -/
def replay_iterator (a : AudioAsset) : List OutFrame :=
  if a.is_valid then
    (replayChunks (chunkSizeOf a) a.buffer).map (fun d =>
      { data := d, sample_rate := a.sample_rate, num_channels := a.channels,
        samples_per_channel := d.length / (2 * a.channels) })
  else []

/-- The JSON responses built by `handle_rpc_replay`, one constructor per
response shape, each carrying the metadata the code puts in it. -/
inductive RpcResponse where
  | no_audio (has_buffer : Bool) (has_text : Bool) (frame_count : Nat)
  | replay_in_progress (current_text : List Char)
  | capture_in_progress
  | success_resp (text : List Char) (duration_seconds : ℚ)
      (frame_count : Nat) (created_at : ℚ)
  | cancelled_resp
  | error_resp (error_type : List Char) (message : List Char)
deriving DecidableEq

/-- The `status` field of the JSON response. -/
def RpcResponse.statusStr : RpcResponse → List Char
  | .no_audio _ _ _ => ("no_audio").data
  | .replay_in_progress _ => ("replay_in_progress").data
  | .capture_in_progress => ("capture_in_progress").data
  | .success_resp _ _ _ _ => ("success").data
  | .cancelled_resp => ("cancelled").data
  | .error_resp _ _ => ("error").data

/-- The `success` field of the JSON response. -/
def RpcResponse.successFlag : RpcResponse → Bool
  | .success_resp _ _ _ _ => true
  | _ => false

/-- The outcomes of the three kinds of `session.say` calls the handler can
make: the spoken feedback in the three validation branches, the actual
replay playback, and the best-effort apology in the error handler. -/
structure SessionModel where
  feedback_say : Except PyExc Unit
  playback_say : Except PyExc Unit
  apology_say : Except PyExc Unit

/-- The message prefix of the error response:
`f"Error reproduciendo audio: {str(e)}"`. -/
def errorMsgPrefix : List Char :=
  ("Error reproduciendo audio: ").data

/-- The two `except` clauses at the bottom of `handle_rpc_replay`,
entered with the exception `e` and the state as mutated so far:
`asyncio.CancelledError` yields the `cancelled` response;
`Exception` bumps `failed_replays`, builds the `error` response, then
makes a best-effort apology whose ordinary failure is swallowed by the
inner `except Exception` — but whose cancellation is not caught by
anything and propagates. -/
def rpc_except_clauses (sess : SessionModel) (e : PyExc) (st : ReplayState) :
    ReplayState × Except PyExc RpcResponse :=
  match e with
  | .cancelled => ({ st with is_replaying := false }, .ok .cancelled_resp)
  | .exc ty msg =>
    let st1 : ReplayState :=
      { st with
        failed_replays := st.failed_replays + 1,
        is_replaying := false }
    let resp : RpcResponse := .error_resp ty.data (errorMsgPrefix ++ msg.data)
    match sess.apology_say with
    | .ok _ => (st1, .ok resp)
    | .error (.exc _ _) => (st1, .ok resp)
    | .error .cancelled => (st1, .error .cancelled)

/-- `AudioReplayService.handle_rpc_replay`: the three lock-guarded
validations in order (`no_audio`, `replay_in_progress`,
`capture_in_progress`, each with spoken feedback), then playback with
`is_replaying` set around it (reset in a `finally`), `total_replays`
bumped and the `success` response with asset metadata; exceptions fall
through to `rpc_except_clauses`.  The second component is `.error e` when
the Python function would let `e` escape. -/
def handle_rpc_replay (sess : SessionModel) (st : ReplayState) :
    ReplayState × Except PyExc RpcResponse :=
  if st.current_asset.is_valid = false then
    match sess.feedback_say with
    | .ok _ =>
      (st, .ok (.no_audio (decide (0 < st.current_asset.buffer.length))
        (decide (0 < st.current_asset.clean_text.length))
        st.current_asset.frame_count))
    | .error e => rpc_except_clauses sess e st
  else if st.is_replaying then
    match sess.feedback_say with
    | .ok _ => (st, .ok (.replay_in_progress (st.current_asset.clean_text.take 50)))
    | .error e => rpc_except_clauses sess e st
  else if st.is_capturing then
    match sess.feedback_say with
    | .ok _ => (st, .ok .capture_in_progress)
    | .error e => rpc_except_clauses sess e st
  else
    let st1 : ReplayState := { st with is_replaying := true }
    match sess.playback_say with
    | .ok _ =>
      let st2 : ReplayState :=
        { st1 with total_replays := st1.total_replays + 1, is_replaying := false }
      (st2, .ok (.success_resp st2.current_asset.clean_text
        st2.current_asset.duration_seconds st2.current_asset.frame_count
        st2.current_asset.created_at))
    | .error e =>
      rpc_except_clauses sess e { st1 with is_replaying := false }

/-- A concrete service state whose stereo asset exceeds its configured
buffer limit of `2/1048576` MB (= 2 bytes): used to exercise the
truncation branch of `_finalize_audio_asset`. -/
def truncState : ReplayState :=
  { max_buffer_size_mb := 2 / 1048576
    max_duration_seconds := 120
    current_asset :=
      { buffer := [0, 0, 0, 0], sample_rate := 16000, channels := 2,
        frame_count := 4, text_content := [ 'h'], clean_text := [ 'h'],
        created_at := 0, duration_seconds := 1 }
    is_capturing := false
    is_replaying := false
    total_captures := 0
    total_replays := 0
    failed_captures := 0
    failed_replays := 0 }

/-- A concrete service state holding a valid captured asset, used to
exercise the replay paths. -/
def validState : ReplayState :=
  { max_buffer_size_mb := 10
    max_duration_seconds := 120
    current_asset :=
      { buffer := [0, 0], sample_rate := 16000, channels := 1,
        frame_count := 1, text_content := [ 'h'], clean_text := [ 'h'],
        created_at := 2, duration_seconds := 1 }
    is_capturing := false
    is_replaying := false
    total_captures := 1
    total_replays := 0
    failed_captures := 0
    failed_replays := 0 }

/-- A session whose three kinds of `say` calls all succeed. -/
def sessOk : SessionModel :=
  { feedback_say := .ok (), playback_say := .ok (), apology_say := .ok () }

/-- A session whose playback raises a `RuntimeError` and whose best-effort
apology is then cancelled. -/
def sessBad : SessionModel :=
  { feedback_say := .ok ()
    playback_say := .error (.exc ("RuntimeError") ("boom"))
    apology_say := .error .cancelled }

/-- A session whose playback raises a `RuntimeError` but whose apology
succeeds. -/
def sessExc : SessionModel :=
  { feedback_say := .ok ()
    playback_say := .error (.exc ("RuntimeError") ("boom"))
    apology_say := .ok () }

/-- C3 counterexample: an `AudioAsset` with an empty buffer but a positive
frame count, non-blank cleaned text and duration above 0.1 s is not
`is_valid`, although the three conditions listed by the claim all hold. -/
theorem C3_counterexample :
    let a : AudioAsset :=
      { buffer := [], sample_rate := 16000, channels := 1, frame_count := 1,
        text_content := [ 'x'], clean_text := [ 'x'], created_at := 0,
        duration_seconds := 1 }
    a.is_valid = false ∧ 0 < a.frame_count ∧
      0 < (pyStrip a.clean_text).length ∧ (1 : ℚ) / 10 < a.duration_seconds := by
  refine ⟨?_, by decide, by decide, by norm_num⟩
  simp [AudioAsset.is_valid]

/-- C3 (amended): `is_valid()` returns true iff the buffer is non-empty AND
`frame_count > 0` AND `clean_text` is non-empty after stripping whitespace
AND `duration_seconds > 0.1`. (The claim omitted the buffer condition.) -/
theorem C3_is_valid_characterization (a : AudioAsset) :
    a.is_valid = true ↔
      (0 < a.buffer.length ∧ 0 < a.frame_count ∧
        0 < (pyStrip a.clean_text).length ∧ (1 : ℚ) / 10 < a.duration_seconds) := by
  simp [AudioAsset.is_valid, and_assoc]

/-- C10: the constructor raises `ValueError` exactly when
`max_buffer_size_mb <= 0` or `> 100`, or `max_duration_seconds <= 0` or
`> 300`; when it does not raise, the new service has an invalid empty
asset, both busy flags false and all four counters zero. -/
theorem C10_init_spec (mb dur now : ℚ) :
    ((∃ msg, AudioReplayService_init mb dur now = .error (.exc ("ValueError") msg)) ↔
      (mb ≤ 0 ∨ 100 < mb ∨ dur ≤ 0 ∨ 300 < dur)) ∧
    (∀ st, AudioReplayService_init mb dur now = .ok st →
      st.current_asset.is_valid = false ∧
      st.is_capturing = false ∧ st.is_replaying = false ∧
      st.total_captures = 0 ∧ st.total_replays = 0 ∧
      st.failed_captures = 0 ∧ st.failed_replays = 0) := by
  constructor
  · constructor
    · intro ⟨msg, hmsg⟩
      by_cases h1 : mb ≤ 0 ∨ 100 < mb
      · tauto
      · by_cases h2 : dur ≤ 0 ∨ 300 < dur
        · tauto
        · simp [AudioReplayService_init, h1, h2] at hmsg
    · intro h
      by_cases h1 : mb ≤ 0 ∨ 100 < mb
      · refine ⟨("max_buffer_size_mb debe estar entre 0.1 y 100 MB"), ?_⟩
        simp [AudioReplayService_init, h1]
      · have h2 : dur ≤ 0 ∨ 300 < dur := by tauto
        refine ⟨("max_duration_seconds debe estar entre 1 y 300 segundos"), ?_⟩
        simp [AudioReplayService_init, h1, h2]
  · intro st hst
    by_cases h1 : mb ≤ 0 ∨ 100 < mb
    · simp [AudioReplayService_init, h1] at hst
    · by_cases h2 : dur ≤ 0 ∨ 300 < dur
      · simp [AudioReplayService_init, h1, h2] at hst
      · simp [AudioReplayService_init, h1, h2] at hst
        subst hst
        refine ⟨?_, rfl, rfl, rfl, rfl, rfl, rfl⟩
        simp [freshState, AudioAsset.is_valid]

/-- C10 witness: at `mb = 10`, `dur = 120` the constructor succeeds and the
fresh-state properties hold. -/
theorem C10_init_spec_witness :
    AudioReplayService_init 10 120 0 = .ok (freshState 10 120 0) ∧
      (freshState 10 120 0).current_asset.is_valid = false ∧
      (freshState 10 120 0).total_captures = 0 := by
  have hok : AudioReplayService_init 10 120 0 = .ok (freshState 10 120 0) := by
    unfold AudioReplayService_init
    rw [if_neg (by norm_num), if_neg (by norm_num)]
  have h := (C10_init_spec 10 120 0).2 (freshState 10 120 0) hok
  exact ⟨hok, h.1, h.2.2.2.1⟩

/-- A string with no clock-time match anywhere has none at its head. -/
theorem clockFree_matchCore_none {s : List Char}
    (h : containsClockTime s = false) : matchCore s = none := by
  cases s with
  | nil =>
    rfl
  | cons c cs =>
    simp only [containsClockTime, Bool.or_eq_false_iff] at h
    cases hm : matchCore (c :: cs) with
    | none => rfl
    | some r => rw [hm] at h; simp at h

/-- A string with no clock-time match anywhere has none in its tail. -/
theorem clockFree_tail {c : Char} {cs : List Char}
    (h : containsClockTime (c :: cs) = false) : containsClockTime cs = false := by
  simp only [containsClockTime, Bool.or_eq_false_iff] at h
  exact h.2

/-- The trailing-timestamp pass is the identity on clock-free strings. -/
theorem subEndTimestamp_id {s : List Char}
    (h : containsClockTime s = false) : subEndTimestamp s = s := by
  induction s with
  | nil => rfl
  | cons c cs ih =>
    have hnone := clockFree_matchCore_none h
    have hend : matchCoreEnd (c :: cs) = false := by
      unfold matchCoreEnd
      rw [hnone]
    simp only [subEndTimestamp, hend, Bool.false_eq_true, if_false]
    rw [ih (clockFree_tail h)]

/-- The leading-timestamp pass is the identity on clock-free strings. -/
theorem subStartTimestamp_id {s : List Char}
    (h : containsClockTime s = false) : subStartTimestamp s = s := by
  unfold subStartTimestamp
  rw [clockFree_matchCore_none h]
  rfl

/-- The embedded-timestamp pass is the identity on clock-free strings. -/
theorem subMiddleTimestamps_id {s : List Char}
    (h : containsClockTime s = false) : subMiddleTimestamps s = s := by
  induction s with
  | nil => rw [subMiddleTimestamps]
  | cons c cs ih =>
    rw [subMiddleTimestamps]
    split
    · next r heq => rw [clockFree_matchCore_none h] at heq; cases heq
    · rw [ih (clockFree_tail h)]

/-- C8: `_clean_text_content` maps `"Hola 3:57 p. m."` to `"Hola"`, and maps
every input containing no clock-time pattern to the same text modulo
whitespace normalization (runs of whitespace collapsed to single spaces,
leading/trailing whitespace stripped). -/
theorem C8_clean_text_content :
    clean_text_content ("Hola 3:57 p. m.").data = ("Hola").data ∧
    ∀ s : List Char, containsClockTime s = false →
      clean_text_content s = normalizeWhitespace s := by
  have main : ∀ s : List Char, containsClockTime s = false →
      clean_text_content s = normalizeWhitespace s := by
    intro s h
    by_cases hs : s = []
    · subst hs; rfl
    · unfold clean_text_content normalizeWhitespace
      rw [if_neg hs, subEndTimestamp_id h, subStartTimestamp_id h,
        subMiddleTimestamps_id h]
  refine ⟨?_, main⟩
  have h1 : subEndTimestamp ("Hola 3:57 p. m.").data = ("Hola").data := by decide
  have h2 : subStartTimestamp ("Hola").data = ("Hola").data := by decide
  have h3 : subMiddleTimestamps ("Hola").data = ("Hola").data :=
    subMiddleTimestamps_id (by decide)
  unfold clean_text_content
  rw [if_neg (by decide), h1, h2, h3]
  decide

/-- C8 witness: `"Hola mundo"` is clock-free and is mapped to its own
whitespace normalization. -/
theorem C8_clean_text_content_witness :
    containsClockTime ("Hola mundo").data = false ∧
      clean_text_content ("Hola mundo").data =
        normalizeWhitespace ("Hola mundo").data :=
  ⟨by decide, C8_clean_text_content.2 (("Hola mundo").data) (by decide)⟩

/-- C9: for every input handle (falsy, malformed or well-formed),
`save_last_audio` propagates no exception to its caller, and
`is_capturing` is false when it returns. -/
theorem C9_save_last_audio_safe (now : ℚ) (h : HandleArg) (st : ReplayState)
    (hst : st.is_capturing = false) :
    (save_last_audio now h st).2 = none ∧
      (save_last_audio now h st).1.is_capturing = false := by
  cases h with
  | invalid => exact ⟨rfl, hst⟩
  | malformed ty msg => exact ⟨rfl, rfl⟩
  | ok sh => exact ⟨rfl, rfl⟩

/-- C9 witness: a malformed handle raising `TypeError` on a fresh service:
the call returns normally with `is_capturing` false. -/
theorem C9_save_last_audio_safe_witness :
    (save_last_audio 0 (.malformed ("TypeError") ("boom")) (freshState 10 120 0)).2 = none ∧
      (save_last_audio 0 (.malformed ("TypeError") ("boom")) (freshState 10 120 0)).1.is_capturing
        = false :=
  C9_save_last_audio_safe 0 (.malformed ("TypeError") ("boom")) (freshState 10 120 0) rfl

/-- C1 counterexample: a handle whose `chat_message.content` is a single
non-audio, non-text item is not a silent no-op on a fresh service — the
capture clears the asset, stamps `created_at` and bumps
`failed_captures` from 0 to 1. -/
theorem C1_counterexample :
    (save_last_audio 5 (.ok { chat_message := some { content := [ContentItem.other] } })
        (freshState 10 120 0)).1.failed_captures = 1 ∧
      (freshState 10 120 0).failed_captures = 0 := by
  constructor
  · norm_num [save_last_audio, save_last_audio_body, capture_audio_content,
      capture_text_content, finalize_audio_asset, audioFramesOf, textOf,
      AudioAsset.clear, AudioAsset.size_mb, AudioAsset.is_valid, freshState]
  · rfl

/-- Validity of an asset does not depend on its creation time. -/
theorem is_valid_set_created_at (a : AudioAsset) (x : ℚ) :
    ({ a with created_at := x } : AudioAsset).is_valid = a.is_valid := by
  simp [AudioAsset.is_valid]

/-- C1 (amended): capturing from a handle whose message has no
audio-content items (with frames) and no items with truthy text is *not*
a silent no-op.  The call still returns normally with `is_capturing`
false, but: with empty content the asset keeps its fields except that
`created_at` is stamped, and `total_captures` (if the retained asset is
valid) or `failed_captures` (otherwise) is incremented; with non-empty
content the asset is cleared and re-stamped and `failed_captures` is
incremented. -/
theorem C1_capture_without_audio_or_text (now : ℚ) (st : ReplayState)
    (cm : ChatMessage)
    (hAudio : ∀ c ∈ cm.content, audioFramesOf c = none)
    (hText : ∀ c ∈ cm.content, textOf c = none) :
    (save_last_audio now (.ok { chat_message := some cm }) st).2 = none ∧
    (save_last_audio now (.ok { chat_message := some cm }) st).1.is_capturing = false ∧
    (cm.content = [] → st.current_asset.size_mb ≤ st.max_buffer_size_mb →
      (save_last_audio now (.ok { chat_message := some cm }) st).1.current_asset
          = { st.current_asset with created_at := now } ∧
      (st.current_asset.is_valid = true →
        (save_last_audio now (.ok { chat_message := some cm }) st).1.total_captures
            = st.total_captures + 1 ∧
        (save_last_audio now (.ok { chat_message := some cm }) st).1.failed_captures
            = st.failed_captures) ∧
      (st.current_asset.is_valid = false →
        (save_last_audio now (.ok { chat_message := some cm }) st).1.failed_captures
            = st.failed_captures + 1 ∧
        (save_last_audio now (.ok { chat_message := some cm }) st).1.total_captures
            = st.total_captures)) ∧
    (cm.content ≠ [] →
      (save_last_audio now (.ok { chat_message := some cm }) st).1.current_asset
          = { st.current_asset.clear with created_at := now } ∧
      (save_last_audio now (.ok { chat_message := some cm }) st).1.failed_captures
          = st.failed_captures + 1 ∧
      (save_last_audio now (.ok { chat_message := some cm }) st).1.total_captures
          = st.total_captures) := by
  refine ⟨rfl, rfl, ?_, ?_⟩
  · intro hnil hsize
    rcases cm with ⟨content⟩
    simp only at hnil
    subst hnil
    have hlt : ¬ (st.max_buffer_size_mb < st.current_asset.size_mb) :=
      not_lt.mpr hsize
    rcases hv : st.current_asset.is_valid with _ | _ <;>
      simp [save_last_audio, save_last_audio_body, capture_audio_content,
        capture_text_content, finalize_audio_asset, hlt,
        is_valid_set_created_at, hv]
  · intro hne
    rcases cm with ⟨content⟩
    simp only at hne
    rcases content with _ | ⟨c, cs⟩
    · exact absurd rfl hne
    · have hA : (c :: cs).filterMap audioFramesOf = [] :=
        List.filterMap_eq_nil_iff.mpr hAudio
      have hT : (c :: cs).filterMap textOf = [] :=
        List.filterMap_eq_nil_iff.mpr hText
      by_cases hneg : st.max_buffer_size_mb < (st.current_asset.clear).size_mb
      · simp [save_last_audio, save_last_audio_body, capture_audio_content,
          capture_text_content, finalize_audio_asset, hA, hT, hneg,
          AudioAsset.clear, AudioAsset.is_valid, AudioAsset.size_mb]
      · simp [save_last_audio, save_last_audio_body, capture_audio_content,
          capture_text_content, finalize_audio_asset, hA, hT, hneg,
          AudioAsset.clear, AudioAsset.is_valid, AudioAsset.size_mb]

/-- C1 witness: the amended claim applied to a fresh service and a
single-item, non-audio, non-text message. -/
theorem C1_capture_without_audio_or_text_witness :
    (save_last_audio 3 (.ok { chat_message := some { content := [ContentItem.other] } })
        (freshState 10 120 0)).1.current_asset
      = { (freshState 10 120 0).current_asset.clear with created_at := 3 } ∧
    (save_last_audio 3 (.ok { chat_message := some { content := [ContentItem.other] } })
        (freshState 10 120 0)).1.failed_captures
      = (freshState 10 120 0).failed_captures + 1 :=
  ⟨((C1_capture_without_audio_or_text 3 (freshState 10 120 0)
      { content := [ContentItem.other] } (by decide) (by decide)).2.2.2
        (by decide)).1,
   ((C1_capture_without_audio_or_text 3 (freshState 10 120 0)
      { content := [ContentItem.other] } (by decide) (by decide)).2.2.2
        (by decide)).2.1⟩

/-- Python `int()` truncation under-approximates nonnegative rationals. -/
theorem pyInt_le (q : ℚ) (hq : 0 ≤ q) : ((pyInt q : ℤ) : ℚ) ≤ q := by
  have h1 : pyInt q = ⌊q⌋ := by
    rw [pyInt, Int.tdiv_eq_ediv (Rat.num_nonneg.mpr hq) (Int.natCast_nonneg _),
      Rat.floor_def]
  rw [h1]
  exact Int.floor_le q

/-- C2 (amended): when the concatenated buffer exceeds the configured
maximum, the stored buffer length after finalization equals exactly
`int(max_buffer_size_mb * 1024 * 1024)` bytes, and the duration is
recomputed as `(len(buffer) // 2) / sample_rate` — the channel count does
not enter the recomputation (the claim's division by `channels` holds
only for mono assets). -/
theorem C2_finalize_truncation (now : ℚ) (st : ReplayState)
    (hover : st.max_buffer_size_mb < st.current_asset.size_mb)
    (hmb : 0 ≤ st.max_buffer_size_mb)
    (hsr : 0 < st.current_asset.sample_rate) :
    (finalize_audio_asset now st).current_asset.buffer.length
        = (pyInt (st.max_buffer_size_mb * 1024 * 1024)).toNat ∧
    (finalize_audio_asset now st).current_asset.duration_seconds
        = (((finalize_audio_asset now st).current_asset.buffer.length / 2 : ℕ) : ℚ)
            / (st.current_asset.sample_rate : ℚ) := by
  have hq : (0:ℚ) ≤ st.max_buffer_size_mb * 1024 * 1024 :=
    mul_nonneg (mul_nonneg hmb (by norm_num)) (by norm_num)
  have hlt : st.max_buffer_size_mb * 1024 * 1024
      < (st.current_asset.buffer.length : ℚ) := by
    have h0 : st.max_buffer_size_mb
        < (st.current_asset.buffer.length : ℚ) / (1024 * 1024) := hover
    have h1 := (lt_div_iff₀ (by norm_num : (0:ℚ) < 1024 * 1024)).mp h0
    calc st.max_buffer_size_mb * 1024 * 1024
        = st.max_buffer_size_mb * (1024 * 1024) := by ring
      _ < (st.current_asset.buffer.length : ℚ) := h1
  have hle : (pyInt (st.max_buffer_size_mb * 1024 * 1024)).toNat
      ≤ st.current_asset.buffer.length := by
    have h2 : ((pyInt (st.max_buffer_size_mb * 1024 * 1024) : ℤ) : ℚ)
        < (st.current_asset.buffer.length : ℚ) :=
      lt_of_le_of_lt (pyInt_le _ hq) hlt
    have h3 : pyInt (st.max_buffer_size_mb * 1024 * 1024)
        < (st.current_asset.buffer.length : ℤ) := by exact_mod_cast h2
    exact Int.toNat_le.mpr (le_of_lt h3)
  have hlen : (finalize_audio_asset now st).current_asset.buffer.length
      = (pyInt (st.max_buffer_size_mb * 1024 * 1024)).toNat := by
    simp only [finalize_audio_asset]
    rw [if_pos hover, if_pos hsr]
    simp [List.length_take, Nat.min_eq_left hle]
  refine ⟨hlen, ?_⟩
  rw [hlen]
  simp only [finalize_audio_asset]
  rw [if_pos hover, if_pos hsr]
  simp [List.length_take, Nat.min_eq_left hle]

/-- C2 counterexample: for a stereo asset (`channels = 2`) exceeding the
limit, the recomputed duration is `(len // 2) / sample_rate`
(= 1/16000 s for the 2 surviving bytes at 16 kHz), not the claim's
`len / 2 / channels / sample_rate` (= 1/32000 s). -/
theorem C2_counterexample :
    truncState.max_buffer_size_mb < truncState.current_asset.size_mb ∧
    (finalize_audio_asset 7 truncState).current_asset.buffer.length = 2 ∧
    truncState.current_asset.channels = 2 ∧
    (finalize_audio_asset 7 truncState).current_asset.duration_seconds = 1 / 16000 ∧
    (finalize_audio_asset 7 truncState).current_asset.duration_seconds
      ≠ ((finalize_audio_asset 7 truncState).current_asset.buffer.length : ℚ) / 2
          / (truncState.current_asset.channels : ℚ)
          / (truncState.current_asset.sample_rate : ℚ) := by
  have hpy : (pyInt (2 : ℚ)).toNat = 2 := by
    norm_num [pyInt, Rat.num_ofNat, Rat.den_ofNat]
    rfl
  refine ⟨by norm_num [truncState, AudioAsset.size_mb], ?_, rfl, ?_, ?_⟩
  · norm_num [finalize_audio_asset, truncState, AudioAsset.size_mb, hpy]
  · norm_num [finalize_audio_asset, truncState, AudioAsset.size_mb, hpy]
  · norm_num [finalize_audio_asset, truncState, AudioAsset.size_mb, hpy]

/-- C2 witness: the amended truncation claim applied to the concrete
over-limit stereo state. -/
theorem C2_finalize_truncation_witness :
    (finalize_audio_asset 7 truncState).current_asset.buffer.length
        = (pyInt (truncState.max_buffer_size_mb * 1024 * 1024)).toNat ∧
    (finalize_audio_asset 7 truncState).current_asset.duration_seconds
        = (((finalize_audio_asset 7 truncState).current_asset.buffer.length / 2 : ℕ) : ℚ)
            / (truncState.current_asset.sample_rate : ℚ) :=
  C2_finalize_truncation 7 truncState
    (by norm_num [truncState, AudioAsset.size_mb])
    (by norm_num [truncState])
    (by norm_num [truncState])

/-- `validState` really holds a valid asset. -/
theorem validState_is_valid : validState.current_asset.is_valid = true := by
  simp [validState, AudioAsset.is_valid, pyStrip, isPySpace]
  norm_num

/-- C4: with working spoken feedback, `handle_rpc_replay` checks its
preconditions in a fixed order, each branch returning (not raising) a
response with `success = false`: no valid asset → `no_audio` (in
particular on a fresh service); else a replay in flight →
`replay_in_progress`; else a capture in flight → `capture_in_progress`. -/
theorem C4_rpc_precondition_order (sess : SessionModel) (st : ReplayState)
    (hf : sess.feedback_say = .ok ()) :
    (st.current_asset.is_valid = false →
      ∃ resp, (handle_rpc_replay sess st).2 = .ok resp ∧
        resp.statusStr = ("no_audio").data ∧ resp.successFlag = false) ∧
    (st.current_asset.is_valid = true → st.is_replaying = true →
      ∃ resp, (handle_rpc_replay sess st).2 = .ok resp ∧
        resp.statusStr = ("replay_in_progress").data ∧ resp.successFlag = false) ∧
    (st.current_asset.is_valid = true → st.is_replaying = false →
      st.is_capturing = true →
      ∃ resp, (handle_rpc_replay sess st).2 = .ok resp ∧
        resp.statusStr = ("capture_in_progress").data ∧ resp.successFlag = false) := by
  refine ⟨?_, ?_, ?_⟩
  · intro hv
    simp only [handle_rpc_replay, hv, if_pos, hf]
    exact ⟨_, rfl, rfl, rfl⟩
  · intro hv hr
    simp only [handle_rpc_replay, hv, hr, hf]
    simp only [Bool.true_eq_false, if_false, if_true]
    exact ⟨_, rfl, rfl, rfl⟩
  · intro hv hr hc
    simp only [handle_rpc_replay, hv, hr, hc, hf]
    simp only [Bool.true_eq_false, Bool.false_eq_true, if_false, if_true]
    exact ⟨_, rfl, rfl, rfl⟩

/-- C4 witness: on a fresh service (nothing ever captured) with working
feedback, the handler returns the `no_audio` response. -/
theorem C4_rpc_precondition_order_witness :
    ∃ resp, (handle_rpc_replay sessOk (freshState 10 120 0)).2 = .ok resp ∧
      resp.statusStr = ("no_audio").data ∧ resp.successFlag = false :=
  (C4_rpc_precondition_order sessOk (freshState 10 120 0) rfl).1
    (by simp [freshState, AudioAsset.is_valid])

/-- C6: when all preconditions pass and playback completes normally,
`handle_rpc_replay` bumps `total_replays` by exactly one, returns the
`success` response (status `"success"`, `success = true`) carrying the
asset's text, duration, frame count and creation time, and leaves
`is_replaying` false. -/
theorem C6_rpc_success (sess : SessionModel) (st : ReplayState)
    (hv : st.current_asset.is_valid = true)
    (hr : st.is_replaying = false)
    (hc : st.is_capturing = false)
    (hp : sess.playback_say = .ok ()) :
    (handle_rpc_replay sess st).1.total_replays = st.total_replays + 1 ∧
    (handle_rpc_replay sess st).1.is_replaying = false ∧
    (handle_rpc_replay sess st).2
        = .ok (.success_resp st.current_asset.clean_text
            st.current_asset.duration_seconds st.current_asset.frame_count
            st.current_asset.created_at) ∧
    ∀ resp, (handle_rpc_replay sess st).2 = .ok resp →
      resp.statusStr = ("success").data ∧ resp.successFlag = true := by
  have hred : handle_rpc_replay sess st
      = ({ st with total_replays := st.total_replays + 1, is_replaying := false },
          .ok (.success_resp st.current_asset.clean_text
            st.current_asset.duration_seconds st.current_asset.frame_count
            st.current_asset.created_at)) := by
    simp only [handle_rpc_replay, hv, hr, hc, hp]
    simp only [Bool.true_eq_false, Bool.false_eq_true, if_false]
  rw [hred]
  refine ⟨rfl, rfl, rfl, ?_⟩
  intro resp hresp
  cases hresp
  exact ⟨rfl, rfl⟩

/-- C6 witness: the success path on the concrete valid state with an
all-succeeding session. -/
theorem C6_rpc_success_witness :
    (handle_rpc_replay sessOk validState).1.total_replays
        = validState.total_replays + 1 ∧
    (handle_rpc_replay sessOk validState).1.is_replaying = false ∧
    (handle_rpc_replay sessOk validState).2
        = .ok (.success_resp validState.current_asset.clean_text
            validState.current_asset.duration_seconds
            validState.current_asset.frame_count
            validState.current_asset.created_at) :=
  ⟨(C6_rpc_success sessOk validState validState_is_valid rfl rfl rfl).1,
   (C6_rpc_success sessOk validState validState_is_valid rfl rfl rfl).2.1,
   (C6_rpc_success sessOk validState validState_is_valid rfl rfl rfl).2.2.1⟩

/-- C7 counterexample: if playback raises an ordinary exception and the
best-effort apology is itself cancelled, `handle_rpc_replay` does let the
cancellation escape instead of returning a JSON result — the inner
`except Exception` around the apology does not catch
`asyncio.CancelledError`. -/
theorem C7_counterexample :
    (handle_rpc_replay sessBad validState).2 = .error PyExc.cancelled := by
  have h1 := validState_is_valid
  simp only [handle_rpc_replay, h1, Bool.true_eq_false, if_false]
  rfl

/-- C7 (amended): provided the best-effort apology is not itself
cancelled, `handle_rpc_replay` never lets an exception escape: every path
returns a response.  A cancelled playback yields the `cancelled` response
with no counter change; any other playback exception bumps
`failed_replays` by exactly one and yields the `error` response carrying
the exception's class name and message (ordinary apology failures are
swallowed). -/
theorem C7_rpc_exception_policy (sess : SessionModel) (st : ReplayState)
    (hap : sess.apology_say ≠ .error PyExc.cancelled) :
    (∃ resp, (handle_rpc_replay sess st).2 = .ok resp) ∧
    (st.current_asset.is_valid = true → st.is_replaying = false →
      st.is_capturing = false → sess.playback_say = .error PyExc.cancelled →
      (handle_rpc_replay sess st).2 = .ok .cancelled_resp ∧
      (handle_rpc_replay sess st).1.failed_replays = st.failed_replays ∧
      (handle_rpc_replay sess st).1.failed_captures = st.failed_captures ∧
      (handle_rpc_replay sess st).1.total_replays = st.total_replays ∧
      (handle_rpc_replay sess st).1.total_captures = st.total_captures) ∧
    (∀ ty msg, st.current_asset.is_valid = true → st.is_replaying = false →
      st.is_capturing = false → sess.playback_say = .error (.exc ty msg) →
      (handle_rpc_replay sess st).1.failed_replays = st.failed_replays + 1 ∧
      (handle_rpc_replay sess st).2
          = .ok (.error_resp ty.data (errorMsgPrefix ++ msg.data))) := by
  have hexc : ∀ (e : PyExc) (st2 : ReplayState),
      ∃ resp, (rpc_except_clauses sess e st2).2 = .ok resp := by
    intro e st2
    cases e with
    | cancelled => exact ⟨.cancelled_resp, rfl⟩
    | exc ty msg =>
      cases hA : sess.apology_say with
      | ok u =>
        exact ⟨.error_resp ty.data (errorMsgPrefix ++ msg.data),
          by simp [rpc_except_clauses, hA]⟩
      | error e2 =>
        cases e2 with
        | exc t2 m2 =>
          exact ⟨.error_resp ty.data (errorMsgPrefix ++ msg.data),
            by simp [rpc_except_clauses, hA]⟩
        | cancelled => exact absurd hA hap
  refine ⟨?_, ?_, ?_⟩
  · by_cases hv : st.current_asset.is_valid = false
    · cases hf : sess.feedback_say with
      | ok u =>
        exact ⟨.no_audio (decide (0 < st.current_asset.buffer.length))
            (decide (0 < st.current_asset.clean_text.length))
            st.current_asset.frame_count,
          by simp [handle_rpc_replay, hv, hf]⟩
      | error e =>
        obtain ⟨resp, hr2⟩ := hexc e st
        refine ⟨resp, ?_⟩
        simp [handle_rpc_replay, hv, hf]
        exact hr2
    · have hv2 : st.current_asset.is_valid = true := by
        revert hv; cases st.current_asset.is_valid <;> simp
      by_cases hr : st.is_replaying = true
      · cases hf : sess.feedback_say with
        | ok u =>
          exact ⟨.replay_in_progress (st.current_asset.clean_text.take 50),
            by simp [handle_rpc_replay, hv2, hr, hf]⟩
        | error e =>
          obtain ⟨resp, hr2⟩ := hexc e st
          refine ⟨resp, ?_⟩
          simp [handle_rpc_replay, hv2, hr, hf]
          exact hr2
      · have hr2f : st.is_replaying = false := by
          revert hr; cases st.is_replaying <;> simp
        by_cases hc : st.is_capturing = true
        · cases hf : sess.feedback_say with
          | ok u =>
            exact ⟨.capture_in_progress,
              by simp [handle_rpc_replay, hv2, hr2f, hc, hf]⟩
          | error e =>
            obtain ⟨resp, hr2⟩ := hexc e st
            refine ⟨resp, ?_⟩
            simp [handle_rpc_replay, hv2, hr2f, hc, hf]
            exact hr2
        · have hc2 : st.is_capturing = false := by
            revert hc; cases st.is_capturing <;> simp
          cases hp : sess.playback_say with
          | ok u =>
            exact ⟨.success_resp st.current_asset.clean_text
                st.current_asset.duration_seconds st.current_asset.frame_count
                st.current_asset.created_at,
              by simp [handle_rpc_replay, hv2, hr2f, hc2, hp]⟩
          | error e =>
            obtain ⟨resp, hr2⟩ :=
              hexc e ({ st with is_capturing := false, is_replaying := false })
            refine ⟨resp, ?_⟩
            simp [handle_rpc_replay, hv2, hr2f, hc2, hp]
            exact hr2
  · intro hv hr hc hp
    have hred : handle_rpc_replay sess st
        = ({ st with is_replaying := false }, .ok .cancelled_resp) := by
      simp only [handle_rpc_replay, hv, hr, hc, hp, Bool.true_eq_false,
        Bool.false_eq_true, if_false]
      simp [rpc_except_clauses]
    rw [hred]
    exact ⟨rfl, rfl, rfl, rfl, rfl⟩
  · intro ty msg hv hr hc hp
    cases hA : sess.apology_say with
    | ok u =>
      have hred : handle_rpc_replay sess st
          = ({ st with failed_replays := st.failed_replays + 1, is_replaying := false },
              .ok (.error_resp ty.data (errorMsgPrefix ++ msg.data))) := by
        simp only [handle_rpc_replay, hv, hr, hc, hp, Bool.true_eq_false,
          Bool.false_eq_true, if_false]
        simp [rpc_except_clauses, hA]
      rw [hred]
      exact ⟨rfl, rfl⟩
    | error e2 =>
      cases e2 with
      | cancelled => exact absurd hA hap
      | exc t2 m2 =>
        have hred : handle_rpc_replay sess st
            = ({ st with failed_replays := st.failed_replays + 1, is_replaying := false },
                .ok (.error_resp ty.data (errorMsgPrefix ++ msg.data))) := by
          simp only [handle_rpc_replay, hv, hr, hc, hp, Bool.true_eq_false,
            Bool.false_eq_true, if_false]
          simp [rpc_except_clauses, hA]
        rw [hred]
        exact ⟨rfl, rfl⟩

/-- C7 witness: the amended policy applied to the concrete valid state
with a playback `RuntimeError` and a succeeding apology: `failed_replays`
goes from 0 to 1 and the `error` response carries the class name. -/
theorem C7_rpc_exception_policy_witness :
    (handle_rpc_replay sessExc validState).1.failed_replays
        = validState.failed_replays + 1 ∧
    (handle_rpc_replay sessExc validState).2
        = .ok (.error_resp (("RuntimeError").data)
            (errorMsgPrefix ++ ("boom").data)) :=
  (C7_rpc_exception_policy sessExc validState (by simp [sessExc])).2.2
    ("RuntimeError") ("boom") validState_is_valid rfl rfl rfl

/-- The chunk lengths produced by `replayChunks` sum to the buffer
length (for a positive chunk size). -/
theorem replayChunks_sum (c : Nat) (hc : 0 < c) :
    ∀ l : List Nat, ((replayChunks c l).map List.length).sum = l.length
  | [] => by rw [replayChunks]; rfl
  | b :: bs => by
    rw [replayChunks, if_neg (by omega : ¬ c = 0)]
    simp only [List.map_cons, List.sum_cons]
    rw [replayChunks_sum c hc ((b :: bs).drop c)]
    simp only [List.length_take, List.length_drop, List.length_cons]
    omega
termination_by l => l.length
decreasing_by simp only [List.length_drop, List.length_cons]; omega

/-- `replayChunks` produces exactly `ceil(length / chunk_size)` chunks
(for a positive chunk size). -/
theorem replayChunks_length (c : Nat) (hc : 0 < c) :
    ∀ l : List Nat, (replayChunks c l).length = (l.length + c - 1) / c
  | [] => by
    rw [replayChunks]
    simp only [List.length_nil, Nat.zero_add]
    exact (Nat.div_eq_of_lt (by omega)).symm
  | b :: bs => by
    rw [replayChunks, if_neg (by omega : ¬ c = 0)]
    simp only [List.length_cons]
    rw [replayChunks_length c hc ((b :: bs).drop c)]
    simp only [List.length_drop, List.length_cons]
    have h1 : bs.length + 1 + c - 1 = bs.length + c := by omega
    rw [h1, Nat.add_div_right _ hc]
    rcases le_or_lt c bs.length with hle | hgt
    · have h2 : bs.length + 1 - c + c - 1 = bs.length := by omega
      rw [h2]
    · have h2 : bs.length + 1 - c + c - 1 = c - 1 := by omega
      rw [h2, Nat.div_eq_of_lt (by omega), Nat.div_eq_of_lt hgt]
termination_by l => l.length
decreasing_by simp only [List.length_drop, List.length_cons]; omega

/-- C5: for a valid asset with buffer length `L` and positive 20 ms chunk
size `C = ((sample_rate * 20) // 1000) * 2 * channels`, consuming
`replay_iterator()` yields exactly `ceil(L / C)` frames, their payload
lengths sum to exactly `L`, and every frame carries the asset's sample
rate and channel count. -/
theorem C5_replay_iterator (a : AudioAsset) (hv : a.is_valid = true)
    (hc : 0 < chunkSizeOf a) :
    (replay_iterator a).length
        = (a.buffer.length + chunkSizeOf a - 1) / chunkSizeOf a ∧
    ((replay_iterator a).map (fun f => f.data.length)).sum = a.buffer.length ∧
    ∀ f ∈ replay_iterator a,
      f.sample_rate = a.sample_rate ∧ f.num_channels = a.channels := by
  have hrw : replay_iterator a
      = (replayChunks (chunkSizeOf a) a.buffer).map (fun d =>
          { data := d, sample_rate := a.sample_rate, num_channels := a.channels,
            samples_per_channel := d.length / (2 * a.channels) }) := by
    simp [replay_iterator, hv]
  refine ⟨?_, ?_, ?_⟩
  · rw [hrw, List.length_map, replayChunks_length _ hc]
  · rw [hrw, List.map_map]
    have hcomp : ((fun f : OutFrame => f.data.length) ∘ (fun d : List Nat =>
        ({ data := d, sample_rate := a.sample_rate, num_channels := a.channels,
           samples_per_channel := d.length / (2 * a.channels) } : OutFrame)))
        = List.length := by
      funext d
      rfl
    rw [hcomp, replayChunks_sum _ hc]
  · rw [hrw]
    intro f hf
    rw [List.mem_map] at hf
    obtain ⟨d, hd, rfl⟩ := hf
    exact ⟨rfl, rfl⟩

/-- C5 witness: the iterator over the concrete valid asset (2-byte buffer,
640-byte chunks) satisfies the count, total-length and metadata claims. -/
theorem C5_replay_iterator_witness :
    (replay_iterator validState.current_asset).length
        = (validState.current_asset.buffer.length
            + chunkSizeOf validState.current_asset - 1)
          / chunkSizeOf validState.current_asset ∧
    ((replay_iterator validState.current_asset).map (fun f => f.data.length)).sum
        = validState.current_asset.buffer.length :=
  ⟨(C5_replay_iterator validState.current_asset validState_is_valid (by decide)).1,
   (C5_replay_iterator validState.current_asset validState_is_valid (by decide)).2.1⟩
